import Mathlib

/-!
Shallow embedding of the imapidle program (src/src/lib.rs), covering the
reconnection policy, error classification, the interval timer, address
resolution, the action callbacks, and the IMAP protocol state machine.
-/

namespace Imapidle

/-- Subset of std::io::ErrorKind relevant to the program; `otherKind` stands
for every kind not named in CONNECTION_LOST_ERRORS or CANT_CONNECT_ERRORS. -/
inductive ErrorKind where
  | interrupted
  | wouldBlock
  | connectionAborted
  | connectionReset
  | notConnected
  | networkUnreachable
  | hostUnreachable
  | otherKind
deriving BEq, DecidableEq, Repr

/-- lib.rs lines 57-60: error kinds treated as a lost (transient) connection;
the comment on WouldBlock reads "when a read times out". -/
def CONNECTION_LOST_ERRORS : List ErrorKind :=
  [.interrupted, .wouldBlock]

/-- lib.rs lines 62-68: error kinds treated as "cannot connect". -/
def CANT_CONNECT_ERRORS : List ErrorKind :=
  [.connectionAborted, .connectionReset, .notConnected, .networkUnreachable, .hostUnreachable]

/-- The three failure classes of the reconnection policy. -/
inductive ErrorClass where
  | transient
  | unreachable
  | fatal
deriving BEq, DecidableEq, Repr

/-- Classification performed by the match arms of `run` (lib.rs lines 155-184):
a kind in CONNECTION_LOST_ERRORS is retried immediately, a kind in
CANT_CONNECT_ERRORS is retried with backoff, anything else ends the loop. -/
def classifyError (k : ErrorKind) : ErrorClass :=
  if CONNECTION_LOST_ERRORS.contains k then .transient
  else if CANT_CONNECT_ERRORS.contains k then .unreachable
  else .fatal

/-- Fatal protocol rejections raised by `connect_and_idle` via bail!
(lib.rs lines 269 and 277). -/
inductive FatalErr where
  | authRejected
  | selectInboxFailed
deriving BEq, DecidableEq, Repr

/-- Outcome of one call to `connect_and_idle` as observed by `run`
(lib.rs line 153): Ok, an io::Error of some kind, or a non-IO (anyhow)
error such as a protocol rejection. -/
inductive RunOutcome where
  | ok
  | ioError (k : ErrorKind)
  | protocolError (e : FatalErr)
deriving BEq, DecidableEq, Repr

/-- What one iteration of the reconnect loop does: exit (returning Ok or Err),
or sleep `wait` seconds and continue with counter `nextT`. -/
inductive LoopAction where
  | exit (isOk : Bool)
  | retry (wait : Nat) (nextT : Nat)
deriving BEq, DecidableEq, Repr

/-- lib.rs lines 150-186, one iteration of the reconnect loop of `run`, with
`t` the current value of `time_to_reconnect` (initially 1):
CONNECTION_LOST sets it to 1 and sleeps it; CANT_CONNECT sets it to
min(t*2, 1800) and sleeps it; everything else leaves the loop. -/
def reconnectStep (t : Nat) (o : RunOutcome) : LoopAction :=
  match o with
  | .ok => .exit true
  | .ioError k =>
      match classifyError k with
      | .transient => .retry 1 1
      | .unreachable => .retry (min (t * 2) 1800) (min (t * 2) 1800)
      | .fatal => .exit false
  | .protocolError _ => .exit false

/-- The sequence of sleeps performed by the reconnect loop started with
counter `t` on a given sequence of session outcomes (stopping when the loop
exits). lib.rs lines 150-186. -/
def reconnectWaits (t : Nat) : List RunOutcome → List Nat
  | [] => []
  | o :: os =>
      match reconnectStep t o with
      | .exit _ => []
      | .retry w t2 => w :: reconnectWaits t2 os

/-- An outcome classified UNREACHABLE: ConnectionReset is in
CANT_CONNECT_ERRORS (lib.rs line 64). -/
def unreachableOutcome : RunOutcome := .ioError .connectionReset

/-- An outcome classified TRANSIENT: WouldBlock is in CONNECTION_LOST_ERRORS
(lib.rs line 59). -/
def transientOutcome : RunOutcome := .ioError .wouldBlock

/-- lib.rs line 228: the read timeout set on the socket, in seconds. -/
def readTimeoutSecs : Nat := 120

/-- The error kind produced by a read that exceeds the idle timeout:
WouldBlock, per the comment on lib.rs line 59 ("when a read times out"). -/
def readTimeoutErrorKind : ErrorKind := .wouldBlock

/-- lib.rs lines 116-117: fallback wait of the interval timer, in seconds. -/
def FALLBACK_WAIT_SECS : Nat := 1800

/-- lib.rs lines 85-119, the decision taken on one wake-up of the timer
thread (times in seconds): `run = connected && elapsed >= interval`; if run,
the command is invoked and the wait resets to the interval; otherwise the
wait is `interval.checked_sub(elapsed).unwrap_or(1800)`, i.e. the remaining
time when `elapsed <= interval` and the 1800-second fallback when elapsed
exceeds the interval. Returns (invoked, next wait). -/
def timerStep (interval : Nat) (connected : Bool) (elapsed : Nat) : Bool × Nat :=
  if connected && decide (interval ≤ elapsed) then
    (true, interval)
  else
    (false, if elapsed ≤ interval then interval - elapsed else FALLBACK_WAIT_SECS)

/-- A network address, kept abstract as a string. -/
abbrev SocketAddr := String

/-- lib.rs lines 216-223: at the start of `connect_and_idle` the cached
`cli.addrs` is consulted; only when it is empty is `to_socket_addrs` invoked
(its result modelled as `none` on failure), extending the cache; a failure is
converted to a NotConnected io::Error. Returns the address list used for the
connection together with a flag telling whether the resolver was invoked. -/
def resolveIfEmpty (cached : List SocketAddr) (resolved : Option (List SocketAddr)) :
    Except ErrorKind (List SocketAddr × Bool) :=
  if cached.isEmpty then
    match resolved with
    | some fresh => .ok (cached ++ fresh, true)
    | none => .error .notConnected
  else
    .ok (cached, false)

/-- Result of `Command::new(..).output()`: either the command started and ran
to completion (carrying its exit code), or it failed to start. -/
inductive CmdOutcome where
  | output (exitCode : Int)
  | startFailure
deriving BEq, DecidableEq, Repr

/-- How an action invocation ends: the enclosing code keeps running
(`failureReported` tells whether any failure was reported), or the thread
panics with the given message. -/
inductive CallbackResult where
  | continued (failureReported : Bool)
  | panicked (msg : List Char)
deriving DecidableEq, Repr

/-- True when the invocation lets the enclosing loop keep running. -/
def continuesRunning : CallbackResult → Bool
  | .continued _ => true
  | .panicked _ => false

/-- lib.rs lines 136-148 (`mail_callback`): runs the command with
`.output().expect("command execution failed")`. An Err from `output()` (start
failure) panics; an Ok is never inspected, so a non-zero exit code is ignored
and nothing is reported. -/
def mail_callback (res : CmdOutcome) : CallbackResult :=
  match res with
  | .output _ => .continued false
  | .startFailure => .panicked ("command execution failed".toList)

/-- lib.rs lines 99-110 (timer thread closure): the same
`.output().expect("command execution failed")` pattern as `mail_callback`. -/
def timerCommandInvocation (res : CmdOutcome) : CallbackResult :=
  match res with
  | .output _ => .continued false
  | .startFailure => .panicked ("command execution failed".toList)

/-- A protocol line, as the sequence of its bytes (ASCII, modelled as chars). -/
abbrev Line := List Char

/-- Rust slice starts_with: the second list is an initial segment of the first. -/
def startsWith : Line → Line → Bool
  | _, [] => true
  | [], _ :: _ => false
  | c :: cs, p :: ps => c == p && startsWith cs ps

/-- Rust slice ends_with: the second list is a final segment of the first. -/
def endsWith (l pat : Line) : Bool :=
  startsWith l.reverse pat.reverse

/-- lib.rs line 261: the login request
`format!("A001 login {} {}\r\n", cli.username, cli.password)`. -/
def loginRequest (username password : Line) : Line :=
  "A001 login ".toList ++ username ++ " ".toList ++ password ++ "\r\n".toList

/-- lib.rs line 266: the select request. -/
def selectRequest : Line := "A002 select inbox\r\n".toList

/-- lib.rs line 272: the idle request. -/
def idleRequest : Line := "A003 idle\r\n".toList

/-- lib.rs lines 189-195: the protocol states. `Inbox` is the
MailboxSelected state of the specification. -/
inductive ImapState where
  | Unauthenticated
  | Authenticated
  | Inbox
  | Idling
deriving BEq, DecidableEq, Repr

/-- Position of a state in the forward order
Unauthenticated < Authenticated < Inbox < Idling. -/
def stateRank : ImapState → Nat
  | .Unauthenticated => 0
  | .Authenticated => 1
  | .Inbox => 2
  | .Idling => 3

/-- What processing one line produces besides the next state: the requests
written, and whether the connected / new-mail callbacks fired. -/
structure StepOut where
  state : ImapState
  sent : List Line
  connectedSignal : Bool
  mailSignal : Bool
deriving DecidableEq, Repr

/-- lib.rs lines 259-284: the match on `state` applied to one response line.
Unauthenticated: a line starting "* OK" sends the login request and moves to
Authenticated. Authenticated: "A001 OK" sends select and moves to Inbox, any
other "A001"-tagged line is bail!("The server rejected authentication").
Inbox: "A002 OK" sends idle, moves to Idling and fires the connected
callback, any other "A002"-tagged line is bail!("Selecting inbox failed").
Idling: "+ idling" is informational; a line starting "*" and ending "EXISTS"
fires the mail callback. All other lines are ignored. -/
def processLine (username password : Line) (state : ImapState) (response : Line) :
    Except FatalErr StepOut :=
  match state with
  | .Unauthenticated =>
      if startsWith response ("* OK".toList) then
        .ok ⟨.Authenticated, [loginRequest username password], false, false⟩
      else
        .ok ⟨.Unauthenticated, [], false, false⟩
  | .Authenticated =>
      if startsWith response ("A001 OK".toList) then
        .ok ⟨.Inbox, [selectRequest], false, false⟩
      else if startsWith response ("A001".toList) then
        .error .authRejected
      else
        .ok ⟨.Authenticated, [], false, false⟩
  | .Inbox =>
      if startsWith response ("A002 OK".toList) then
        .ok ⟨.Idling, [idleRequest], true, false⟩
      else if startsWith response ("A002".toList) then
        .error .selectInboxFailed
      else
        .ok ⟨.Inbox, [], false, false⟩
  | .Idling =>
      if startsWith response ("+ idling".toList) then
        .ok ⟨.Idling, [], false, false⟩
      else if startsWith response ("*".toList) && endsWith response ("EXISTS".toList) then
        .ok ⟨.Idling, [], false, true⟩
      else
        .ok ⟨.Idling, [], false, false⟩

/-- Accumulated observation of a session: current state, every request sent
so far, and how many times the mail callback fired. -/
structure Acc where
  state : ImapState
  sent : List Line
  mailCount : Nat
deriving DecidableEq, Repr

/-- lib.rs line 226: the session starts in Unauthenticated with nothing sent. -/
def initialAcc : Acc := ⟨.Unauthenticated, [], 0⟩

/-- Runs the per-response match of `connect_and_idle` (lib.rs lines 248-285)
over a list of response lines, accumulating sent requests and mail-callback
invocations; a bail! ends the run with the fatal error. -/
def runFrom (username password : Line) (acc : Acc) : List Line → Except FatalErr Acc
  | [] => .ok acc
  | response :: rest =>
      match processLine username password acc.state response with
      | .error e => .error e
      | .ok out =>
          runFrom username password
            ⟨out.state, acc.sent ++ out.sent,
              acc.mailCount + (if out.mailSignal then 1 else 0)⟩ rest

/-- lib.rs line 210: the read buffer holds at most 2048 decrypted bytes. -/
def BUFFER_SIZE : Nat := 2048

/-- lib.rs line 245: the split predicate, true on CR and LF. -/
def isLineTerm (c : Char) : Bool :=
  c == '\r' || c == '\n'

/-- Rust `slice::split` on the line terminators (lib.rs line 245): cuts the
chunk at every CR or LF, keeping empty pieces between adjacent terminators. -/
def splitTerms : List Char → List Line
  | [] => [[]]
  | c :: rest =>
      if isLineTerm c then
        [] :: splitTerms rest
      else
        match splitTerms rest with
        | [] => [[c]]
        | piece :: pieces => (c :: piece) :: pieces

/-- lib.rs lines 244-246: split one read chunk on CR/LF and discard the empty
fragments (`filter(|&x| x.len() != 0)`). -/
def splitChunk (chunk : List Char) : List Line :=
  (splitTerms chunk).filter (fun l => !l.isEmpty)

/-- The read loop of `connect_and_idle` (lib.rs lines 230-291), restricted to
its plaintext path: each read chunk is split independently and its fragments
fed to the state machine; fragments of different reads are never reassembled. -/
def runReads (username password : Line) (acc : Acc) : List (List Char) → Except FatalErr Acc
  | [] => .ok acc
  | chunk :: rest =>
      match runFrom username password acc (splitChunk chunk) with
      | .error e => .error e
      | .ok acc2 => runReads username password acc2 rest

/-- The five server lines of the end-to-end scenario, already split. -/
def scenarioResponses : List Line :=
  ["* OK greeting".toList, "A001 OK done".toList, "A002 OK done".toList,
   "+ idling".toList, "* 1 EXISTS".toList]

/-! Helper lemmas -/

/-- A backoff step on an UNREACHABLE outcome doubles the counter up to the cap. -/
lemma reconnectStep_unreachable (t : Nat) (k : ErrorKind)
    (hk : classifyError k = ErrorClass.unreachable) :
    reconnectStep t (RunOutcome.ioError k) =
      LoopAction.retry (min (t * 2) 1800) (min (t * 2) 1800) := by
  simp [reconnectStep, hk]

/-- Multiplying a capped value by a positive factor and capping again is the
same as capping the full product. -/
lemma min_mul_min_cap (m t : Nat) (hm : 1 ≤ m) :
    min (m * min (2 * t) 1800) 1800 = min (m * (2 * t)) 1800 := by
  rcases le_or_lt (2 * t) 1800 with h | h
  · rw [min_eq_left h]
  · have h1 : 1800 ≤ m * 1800 := Nat.le_mul_of_pos_left 1800 (by omega)
    have h2 : 2 * t ≤ m * (2 * t) := Nat.le_mul_of_pos_left (2 * t) (by omega)
    rw [min_eq_right h.le, min_eq_right h1, min_eq_right (by omega)]

/-- Closed form of the waits along a run of consecutive UNREACHABLE outcomes:
starting from counter `t`, the i-th wait is `min (2^(i+1) * t) 1800`. -/
lemma reconnectWaits_replicate (k : ErrorKind)
    (hk : classifyError k = ErrorClass.unreachable) :
    ∀ (n t : Nat), reconnectWaits t (List.replicate n (RunOutcome.ioError k)) =
      (List.range n).map (fun i => min (2 ^ (i + 1) * t) 1800) := by
  intro n
  induction n with
  | zero => intro t; simp [reconnectWaits]
  | succ n ih =>
      intro t
      rw [List.replicate_succ]
      simp only [reconnectWaits, reconnectStep_unreachable t k hk]
      rw [ih (min (t * 2) 1800)]
      rw [List.range_succ_eq_map, List.map_cons, List.map_map]
      congr 1
      · rw [pow_one, mul_comm 2 t]
      · apply List.map_congr_left
        intro i _
        have hcap := min_mul_min_cap (2 ^ (i + 1)) t Nat.one_le_two_pow
        rw [Function.comp_apply, mul_comm t 2, hcap]
        congr 1
        rw [pow_succ, pow_succ]
        ring

/-- Running the line machine over an appended list is sequential composition. -/
lemma runFrom_append (username password : Line) (acc : Acc) (xs ys : List Line) :
    runFrom username password acc (xs ++ ys) =
      match runFrom username password acc xs with
      | .error e => .error e
      | .ok acc2 => runFrom username password acc2 ys := by
  induction xs generalizing acc with
  | nil => simp [runFrom]
  | cons x xs ih =>
      simp only [List.cons_append, runFrom]
      cases processLine username password acc.state x with
      | error e => rfl
      | ok out => simp [ih]

/-- No fragment produced by `splitTerms` contains a line terminator. -/
lemma splitTerms_no_term :
    ∀ (chunk : List Char), ∀ l ∈ splitTerms chunk, ∀ c ∈ l, isLineTerm c = false := by
  intro chunk
  induction chunk with
  | nil =>
      intro l hl c hc
      simp only [splitTerms, List.mem_singleton] at hl
      subst hl
      simp at hc
  | cons a rest ih =>
      intro l hl c hc
      cases ha : isLineTerm a with
      | true =>
          simp [splitTerms, ha] at hl
          rcases hl with rfl | hl
          · simp at hc
          · exact ih l hl c hc
      | false =>
          cases hsp : splitTerms rest with
          | nil =>
              simp [splitTerms, ha, hsp] at hl
              subst hl
              simp at hc
              subst hc
              exact ha
          | cons piece pieces =>
              simp [splitTerms, ha, hsp] at hl
              rcases hl with rfl | hl
              · rcases List.mem_cons.mp hc with rfl | hc
                · exact ha
                · exact ih piece (by rw [hsp]; exact List.mem_cons_self piece pieces) c hc
              · exact ih l (by rw [hsp]; exact List.mem_cons_of_mem piece hl) c hc

/-- Fragments delivered by `splitChunk` are nonempty and terminator-free. -/
lemma splitChunk_fragments (chunk : List Char) :
    ∀ l ∈ splitChunk chunk, l ≠ [] ∧ ∀ c ∈ l, isLineTerm c = false := by
  intro l hl
  rw [splitChunk, List.mem_filter] at hl
  refine ⟨?_, splitTerms_no_term chunk l hl.1⟩
  intro hnil
  rw [hnil] at hl
  simp at hl

/-- Per-read processing equals running the machine on the concatenation of
the per-chunk fragment lists. -/
lemma runReads_eq (username password : Line) :
    ∀ (chunks : List (List Char)) (acc : Acc),
      runReads username password acc chunks =
        runFrom username password acc (chunks.flatMap splitChunk) := by
  intro chunks
  induction chunks with
  | nil => intro acc; rfl
  | cons ch rest ih =>
      intro acc
      simp only [runReads, List.flatMap_cons]
      rw [runFrom_append]
      cases runFrom username password acc (splitChunk ch) with
      | error e => rfl
      | ok acc2 => simp [ih]

/-! Claim theorems -/

/-- C1 (counterexample): the outcome sequence [UNREACHABLE, UNREACHABLE,
UNREACHABLE, TRANSIENT, UNREACHABLE], started from the initial counter 1,
does not yield the claimed wait sequence [1, 2, 4, 10, 1]: the code doubles
the counter before sleeping and sleeps 1 second after a TRANSIENT outcome,
so it yields [2, 4, 8, 1, 2]. -/
theorem C1_backoff_counterexample :
    reconnectWaits 1 [unreachableOutcome, unreachableOutcome, unreachableOutcome,
      transientOutcome, unreachableOutcome] ≠ [1, 2, 4, 10, 1] := by
  decide

/-- C1 (amended): starting from the initial counter 1, the wait after the
(i+1)-th consecutive UNREACHABLE outcome is min (2^(i+1)) 1800 — i.e. the
waits are 2, 4, 8, ... doubling up to the 1800-second cap; any TRANSIENT
outcome waits 1 second and resets the counter to 1; the sequence
[UNREACHABLE, UNREACHABLE, UNREACHABLE, TRANSIENT, UNREACHABLE] yields the
waits [2, 4, 8, 1, 2]. -/
theorem C1_backoff_amended :
    (∀ (n : Nat) (k : ErrorKind), classifyError k = ErrorClass.unreachable →
      reconnectWaits 1 (List.replicate n (RunOutcome.ioError k)) =
        (List.range n).map (fun i => min (2 ^ (i + 1)) 1800))
    ∧ (∀ (t : Nat) (k : ErrorKind), classifyError k = ErrorClass.transient →
      reconnectStep t (RunOutcome.ioError k) = LoopAction.retry 1 1)
    ∧ reconnectWaits 1 [unreachableOutcome, unreachableOutcome, unreachableOutcome,
        transientOutcome, unreachableOutcome] = [2, 4, 8, 1, 2] := by
  refine ⟨?_, ?_, by decide⟩
  · intro n k hk
    have h := reconnectWaits_replicate k hk n 1
    simpa using h
  · intro t k hk
    simp [reconnectStep, hk]

/-- C1 (witness): the amended theorem applied to three consecutive
HostUnreachable outcomes and to an Interrupted outcome with counter 5. -/
theorem C1_backoff_witness :
    reconnectWaits 1 (List.replicate 3 (RunOutcome.ioError ErrorKind.hostUnreachable)) =
      (List.range 3).map (fun i => min (2 ^ (i + 1)) 1800)
    ∧ reconnectStep 5 (RunOutcome.ioError ErrorKind.interrupted) = LoopAction.retry 1 1 :=
  ⟨C1_backoff_amended.1 3 ErrorKind.hostUnreachable (by decide),
   C1_backoff_amended.2.1 5 ErrorKind.interrupted (by decide)⟩

/-- C2 (counterexample): a start failure of the external action does not let
the enclosing loop continue — `expect` panics — and a command that runs but
exits non-zero is a `.continued false` outcome: nothing is reported. Both
contradict "reported (printed) but non-fatal". -/
theorem C2_action_failure_counterexample :
    continuesRunning (mail_callback CmdOutcome.startFailure) = false
    ∧ mail_callback (CmdOutcome.output 1) = CallbackResult.continued false :=
  ⟨rfl, rfl⟩

/-- C2 (amended): on both the new-mail path and the interval-timer path, a
command that starts (whatever its exit code) is ignored without any failure
report and execution continues, while a failure to start panics with message
"command execution failed" (killing the main thread/session on the new-mail
path, and the timer thread on the timer path). -/
theorem C2_action_failure_amended :
    (∀ exitCode : Int,
      mail_callback (CmdOutcome.output exitCode) = CallbackResult.continued false)
    ∧ mail_callback CmdOutcome.startFailure =
        CallbackResult.panicked ("command execution failed".toList)
    ∧ (∀ exitCode : Int,
      timerCommandInvocation (CmdOutcome.output exitCode) = CallbackResult.continued false)
    ∧ timerCommandInvocation CmdOutcome.startFailure =
        CallbackResult.panicked ("command execution failed".toList) :=
  ⟨fun _ => rfl, rfl, fun _ => rfl, rfl⟩

/-- C3 (counterexample): on a reconnection attempt whose cache already holds
an address, the resolver is not invoked (flag `false`) and the cached address
is used even though a fresh resolution would give a different address. -/
theorem C3_resolver_counterexample :
    resolveIfEmpty ["192.0.2.1:993"] (some ["198.51.100.7:993"]) =
      Except.ok (["192.0.2.1:993"], false) :=
  rfl

/-- C3 (amended): the resolver is invoked exactly when the cached `cli.addrs`
list is empty — so only on the first attempt and after attempts on which
resolution failed; once it succeeds, the cached result is reused by every
later attempt, and a resolution failure surfaces as a NotConnected error. -/
theorem C3_resolver_amended :
    (∀ fresh : List SocketAddr,
      resolveIfEmpty [] (some fresh) = Except.ok (fresh, true))
    ∧ (∀ (cached : List SocketAddr) (resolved : Option (List SocketAddr)),
        cached ≠ [] → resolveIfEmpty cached resolved = Except.ok (cached, false))
    ∧ resolveIfEmpty [] none = Except.error ErrorKind.notConnected := by
  refine ⟨fun fresh => rfl, ?_, rfl⟩
  intro cached resolved h
  simp [resolveIfEmpty, h]

/-- C3 (witness): the amended theorem applied to a nonempty cache. -/
theorem C3_resolver_witness :
    resolveIfEmpty ["192.0.2.1:993"] (some ["192.0.2.9:993"]) =
      Except.ok (["192.0.2.1:993"], false) :=
  C3_resolver_amended.2.1 ["192.0.2.1:993"] (some ["192.0.2.9:993"]) (by simp)

/-- C4 (counterexample): with interval 60 s, connected = false and an elapsed
time of 10 s, the timer computes a wait of 50 s (the remaining time), not the
claimed 1800-second fallback. -/
theorem C4_timer_counterexample :
    timerStep 60 false 10 = (false, 50)
    ∧ (timerStep 60 false 10).2 ≠ FALLBACK_WAIT_SECS := by
  constructor
  · rfl
  · decide

/-- C4 (amended): the command is invoked exactly when connected with elapsed
at least the interval (wait resets to the interval); in every other case —
including connected = false — no invocation happens and the wait is the
remaining time `interval - elapsed` when elapsed is at most the interval, and
the 1800-second fallback only when elapsed exceeds the interval. -/
theorem C4_timer_amended :
    (∀ interval elapsed : Nat, interval ≤ elapsed →
        timerStep interval true elapsed = (true, interval))
    ∧ (∀ interval elapsed : Nat, elapsed < interval →
        timerStep interval true elapsed = (false, interval - elapsed))
    ∧ (∀ interval elapsed : Nat, elapsed ≤ interval →
        timerStep interval false elapsed = (false, interval - elapsed))
    ∧ (∀ interval elapsed : Nat, interval < elapsed →
        timerStep interval false elapsed = (false, FALLBACK_WAIT_SECS))
    ∧ timerStep 60 true 61 = (true, 60)
    ∧ timerStep 60 true 10 = (false, 50) := by
  refine ⟨?_, ?_, ?_, ?_, by decide, by decide⟩
  · intro i e h
    simp [timerStep, h]
  · intro i e h
    simp [timerStep, Nat.not_le.mpr h, h.le]
  · intro i e h
    simp [timerStep, h]
  · intro i e h
    simp [timerStep, Nat.not_le.mpr h]

/-- C4 (witness): the amended theorem applied at interval 60 with elapsed
values 60, 59, 10 and 70. -/
theorem C4_timer_witness :
    timerStep 60 true 60 = (true, 60)
    ∧ timerStep 60 true 59 = (false, 1)
    ∧ timerStep 60 false 10 = (false, 50)
    ∧ timerStep 60 false 70 = (false, FALLBACK_WAIT_SECS) :=
  ⟨C4_timer_amended.1 60 60 (by decide),
   C4_timer_amended.2.1 60 59 (by decide),
   C4_timer_amended.2.2.1 60 10 (by decide),
   C4_timer_amended.2.2.2.1 60 70 (by decide)⟩

/-- C5: for the scenario lines `* OK greeting`, `A001 OK done`, `A002 OK
done`, `+ idling`, `* 1 EXISTS`, the client sends exactly the login request
(containing the configured username and password), then the select request,
then the idle request, and the mail callback fires exactly once — namely
after the EXISTS line (the run over the first four lines fires it zero
times). -/
theorem C5_scenario :
    ∀ username password : Line,
      runFrom username password initialAcc scenarioResponses =
        Except.ok ⟨ImapState.Idling,
          [loginRequest username password, selectRequest, idleRequest], 1⟩
      ∧ runFrom username password initialAcc (scenarioResponses.take 4) =
        Except.ok ⟨ImapState.Idling,
          [loginRequest username password, selectRequest, idleRequest], 0⟩
      ∧ List.IsInfix username (loginRequest username password)
      ∧ List.IsInfix password (loginRequest username password) := by
  intro u p
  refine ⟨rfl, rfl, ?_, ?_⟩
  · exact ⟨"A001 login ".toList, " ".toList ++ p ++ "\r\n".toList, by simp [loginRequest]⟩
  · exact ⟨"A001 login ".toList ++ u ++ " ".toList, "\r\n".toList, by simp [loginRequest]⟩

/-- C6: whatever lines were processed before, a line tagged "A001" that is
not the tagged success "A001 OK" arriving in state Authenticated ends the
whole run with the fatal authentication rejection, and a line tagged "A002"
that is not "A002 OK" arriving in state Inbox (MailboxSelected) ends it with
the fatal selection error — regardless of any lines still pending. -/
theorem C6_tagged_rejections :
    (∀ (username password : Line) (acc acc2 : Acc) (pre post : List Line) (resp : Line),
        runFrom username password acc pre = Except.ok acc2 →
        acc2.state = ImapState.Authenticated →
        startsWith resp ("A001".toList) = true →
        startsWith resp ("A001 OK".toList) = false →
        runFrom username password acc (pre ++ resp :: post) =
          Except.error FatalErr.authRejected)
    ∧ (∀ (username password : Line) (acc acc2 : Acc) (pre post : List Line) (resp : Line),
        runFrom username password acc pre = Except.ok acc2 →
        acc2.state = ImapState.Inbox →
        startsWith resp ("A002".toList) = true →
        startsWith resp ("A002 OK".toList) = false →
        runFrom username password acc (pre ++ resp :: post) =
          Except.error FatalErr.selectInboxFailed) := by
  constructor
  · intro u p acc acc2 pre post resp h1 h2 h3 h4
    rw [runFrom_append, h1]
    show runFrom u p acc2 (resp :: post) = _
    have hstep : processLine u p acc2.state resp = Except.error FatalErr.authRejected := by
      rw [h2]
      simp only [processLine]
      rw [h4, h3]
      simp
    simp [runFrom, hstep]
  · intro u p acc acc2 pre post resp h1 h2 h3 h4
    rw [runFrom_append, h1]
    show runFrom u p acc2 (resp :: post) = _
    have hstep : processLine u p acc2.state resp = Except.error FatalErr.selectInboxFailed := by
      rw [h2]
      simp only [processLine]
      rw [h4, h3]
      simp
    simp [runFrom, hstep]

/-- C6 (witness): after a greeting, the line "A001 NO failed" kills the
session with the authentication rejection; after greeting and login success,
the line "A002 NO nope" kills it with the selection error. -/
theorem C6_tagged_rejections_witness :
    runFrom ("u".toList) ("p".toList) initialAcc
        (["* OK ready".toList] ++ ("A001 NO failed".toList) :: []) =
      Except.error FatalErr.authRejected
    ∧ runFrom ("u".toList) ("p".toList) initialAcc
        (["* OK ready".toList, "A001 OK done".toList] ++ ("A002 NO nope".toList) :: []) =
      Except.error FatalErr.selectInboxFailed :=
  ⟨C6_tagged_rejections.1 "u".toList "p".toList initialAcc
      ⟨.Authenticated, [loginRequest "u".toList "p".toList], 0⟩
      ["* OK ready".toList] [] ("A001 NO failed".toList) rfl rfl rfl rfl,
   C6_tagged_rejections.2 "u".toList "p".toList initialAcc
      ⟨.Inbox, [loginRequest "u".toList "p".toList, selectRequest], 0⟩
      ["* OK ready".toList, "A001 OK done".toList] [] ("A002 NO nope".toList) rfl rfl rfl rfl⟩

/-- C7: the error kind produced by a read exceeding the idle timeout
(WouldBlock, per the code's own comment) is classified TRANSIENT — not
UNREACHABLE and not FATAL — and the reconnection policy reacts to it by
retrying after the short fixed 1-second delay with the backoff counter
reset. -/
theorem C7_read_timeout_transient :
    classifyError readTimeoutErrorKind = ErrorClass.transient
    ∧ classifyError readTimeoutErrorKind ≠ ErrorClass.unreachable
    ∧ classifyError readTimeoutErrorKind ≠ ErrorClass.fatal
    ∧ ∀ t : Nat, reconnectStep t (RunOutcome.ioError readTimeoutErrorKind) =
        LoopAction.retry 1 1 :=
  ⟨rfl, by decide, by decide, fun _ => rfl⟩

/-- C8: the session starts in Unauthenticated, and every successfully
processed line moves the state forward or leaves it unchanged in the order
Unauthenticated < Authenticated < Inbox < Idling (the only alternative,
by the type of `processLine`, being termination with a fatal rejection), so
the state never moves backward within one connection. -/
theorem C8_forward_only :
    initialAcc.state = ImapState.Unauthenticated
    ∧ ∀ (username password : Line) (s : ImapState) (resp : Line) (out : StepOut),
        processLine username password s resp = Except.ok out →
        stateRank s ≤ stateRank out.state := by
  refine ⟨rfl, ?_⟩
  intro u p s resp out h
  cases s <;> simp only [processLine] at h <;>
    (repeat' split at h) <;>
    first
      | (injection h with h; subst h; simp [stateRank])
      | simp at h

/-- C8 (witness): the forward-only theorem applied to the greeting line in
the Unauthenticated state. -/
theorem C8_forward_only_witness :
    stateRank ImapState.Unauthenticated ≤
      stateRank (StepOut.state
        ⟨ImapState.Authenticated, [loginRequest "u".toList "p".toList], false, false⟩) :=
  C8_forward_only.2 "u".toList "p".toList ImapState.Unauthenticated ("* OK x".toList)
    ⟨ImapState.Authenticated, [loginRequest "u".toList "p".toList], false, false⟩ rfl

/-- C10: the buffer bound is 2048 bytes; each read chunk is split on CR/LF
with the empty fragments discarded (so every delivered fragment is nonempty
and terminator-free); per-read processing equals feeding the state machine
the per-chunk fragment lists in order, never reassembling fragments across
reads — so the line `* 1 EXISTS` split as `* 1 EXI` / `STS` across two reads
fires no mail callback, while the same line arriving within one read fires
it once. -/
theorem C10_chunkwise_line_split :
    BUFFER_SIZE = 2048
    ∧ (∀ (chunk : List Char), ∀ l ∈ splitChunk chunk,
        l ≠ [] ∧ ∀ c ∈ l, isLineTerm c = false)
    ∧ (∀ (username password : Line) (acc : Acc) (chunks : List (List Char)),
        runReads username password acc chunks =
          runFrom username password acc (chunks.flatMap splitChunk))
    ∧ runReads ("u".toList) ("p".toList) ⟨ImapState.Idling, [], 0⟩
        ["* 1 EXI".toList, "STS\r\n".toList] = Except.ok ⟨ImapState.Idling, [], 0⟩
    ∧ runReads ("u".toList) ("p".toList) ⟨ImapState.Idling, [], 0⟩
        ["* 1 EXISTS\r\n".toList] = Except.ok ⟨ImapState.Idling, [], 1⟩ := by
  exact ⟨rfl, splitChunk_fragments,
    fun u p acc chunks => runReads_eq u p chunks acc, rfl, rfl⟩

/-- C10 (witness): the splitting theorem applied to the chunk
"* OK hi\r\n" and its single fragment "* OK hi". -/
theorem C10_chunkwise_line_split_witness :
    "* OK hi".toList ≠ [] ∧ isLineTerm 'O' = false :=
  ⟨(C10_chunkwise_line_split.2.1 ("* OK hi\r\n".toList) ("* OK hi".toList) (by decide)).1,
   (C10_chunkwise_line_split.2.1 ("* OK hi\r\n".toList) ("* OK hi".toList) (by decide)).2
     'O' (by decide)⟩

end Imapidle
